import Mathlib

/-!
Verification of the dual-backend query and derived-metrics layer of the
Illinois local-government fiscal data service.

The Lean definitions below are a shallow embedding of the Python source:

* `src/il_fiscal_agent/utils/bigquery_utils.py` — the BigQuery-direct adapter
  (functions suffixed `_bq` here);
* `src/access_api/fiscal_data_api.py` — the Flask API with its MS Access
  primary backend (functions suffixed `_api` here; within that file the
  MS Access branch and the BigQuery branch of each endpoint select the same
  columns and run the same Python post-processing, so one Lean definition
  models both branches);
* `src/il_fiscal_agent/tools/fiscal_tools.py` — the tool layer that composes
  the adapter calls (ratings, fiscal health score, comparison, validation);
* `src/il_fiscal_agent/agents/root_agent.py` — the before-tool guardrail that
  validates entity-code syntax.

SQL queries are embedded at the level of their results: a table is a list of
rows, `WHERE Code = @code` is a filter, `ORDER BY` is a stable insertion
sort, `LIMIT n` / `TOP n` is `List.take n`, `COALESCE(x, 0)` / `IIF(x IS
NULL, 0, x)` is `Option.getD 0`, and `RANK() OVER (ORDER BY m DESC)` is one
plus the number of rows of the window strictly greater in `m`.  Nullable
numeric columns are `Option ℚ`; non-null derived numbers are `ℚ`.
-/

/-- Null-coalescing of a numeric column: `COALESCE(x, 0)` in BigQuery,
`IIF(x IS NULL, 0, x)` in MS Access, `x or 0` in Python. -/
def coalesce (x : Option ℚ) : ℚ := x.getD 0

/-- One row of the `Revenues` / `Expenditures` / `FundBalances` tables:
an entity code, a category code, and the eight nullable fund-type amount
columns `GN SR CP DS EP TS FD DP` (General, Special Revenue, Capital
Projects, Debt Service, Enterprise, Trust, Fiduciary, Debt Principal). -/
structure FinRow where
  Code : String
  Category : String
  GN : Option ℚ
  SR : Option ℚ
  CP : Option ℚ
  DS : Option ℚ
  EP : Option ℚ
  TS : Option ℚ
  FD : Option ℚ
  DP : Option ℚ
deriving Repr, DecidableEq

/-- Sum of all eight fund-type amounts of a financial row, nulls as zero.
This is the data model's notion of "the sum of its fund-type amounts". -/
def fundSum8 (r : FinRow) : ℚ :=
  coalesce r.GN + coalesce r.SR + coalesce r.CP + coalesce r.DS +
    coalesce r.EP + coalesce r.TS + coalesce r.FD + coalesce r.DP

/-- Sum of the seven fund-type amounts excluding Debt Principal (`DP`),
nulls as zero.  This is the per-row total the API endpoints compute. -/
def fundSum7 (r : FinRow) : ℚ :=
  coalesce r.GN + coalesce r.SR + coalesce r.CP + coalesce r.DS +
    coalesce r.EP + coalesce r.TS + coalesce r.FD

/-- Normalized financial line item as produced by
`bigquery_utils.get_entity_revenues` / `get_entity_expenditures`: the eight
coalesced fund amounts plus a `Total` column computed in the SELECT as the
sum of all eight coalesced fund columns. -/
structure LineItem where
  Category : String
  GeneralFund : ℚ
  SpecialRevenue : ℚ
  CapitalProjects : ℚ
  DebtService : ℚ
  Enterprise : ℚ
  Trust : ℚ
  Fiduciary : ℚ
  DebtPrincipal : ℚ
  Total : ℚ
deriving Repr, DecidableEq

/-- Normalized financial line item as produced by the
`/entities/code/revenues` and `/entities/code/expenditures` endpoints of
`fiscal_data_api.py`: only seven fund columns are selected (no `DP`), and
`Total` is computed in Python as the sum of those seven. -/
structure LineItem7 where
  Category : String
  GeneralFund : ℚ
  SpecialRevenue : ℚ
  CapitalProjects : ℚ
  DebtService : ℚ
  Enterprise : ℚ
  Trust : ℚ
  Fiduciary : ℚ
  Total : ℚ
deriving Repr, DecidableEq

/-- SELECT list of `bigquery_utils.get_entity_revenues`: coalesce each of
the eight fund columns and add their sum as `Total`. -/
def normalizeRow8 (r : FinRow) : LineItem :=
  { Category := r.Category
    GeneralFund := coalesce r.GN
    SpecialRevenue := coalesce r.SR
    CapitalProjects := coalesce r.CP
    DebtService := coalesce r.DS
    Enterprise := coalesce r.EP
    Trust := coalesce r.TS
    Fiduciary := coalesce r.FD
    DebtPrincipal := coalesce r.DP
    Total := fundSum8 r }

/-- SELECT list plus Python row loop of the API revenue/expenditure
endpoints: coalesce the seven selected fund columns (Debt Principal is not
selected) and set `Total` to their sum. -/
def normalizeRow7 (r : FinRow) : LineItem7 :=
  { Category := r.Category
    GeneralFund := coalesce r.GN
    SpecialRevenue := coalesce r.SR
    CapitalProjects := coalesce r.CP
    DebtService := coalesce r.DS
    Enterprise := coalesce r.EP
    Trust := coalesce r.TS
    Fiduciary := coalesce r.FD
    Total := fundSum7 r }

/-- Row ordering used by `ORDER BY Category` (string comparison). -/
def categoryLe (a b : FinRow) : Prop := a.Category ≤ b.Category

instance : DecidableRel categoryLe := fun a b =>
  inferInstanceAs (Decidable (a.Category ≤ b.Category))

/-- Result of `WHERE Code = @code ORDER BY Category` on a financial table:
keep the rows of the entity, stably sorted by category code. -/
def rowsForCode (table : List FinRow) (code : String) : List FinRow :=
  (table.filter (fun r => r.Code = code)).insertionSort categoryLe

/-- Result shape of `bigquery_utils.get_entity_revenues` (and, with the
total under the other name, `get_entity_expenditures`): the grand total is
the Python `sum` of the `Total` field over the returned rows. -/
structure FinBreakdown where
  code : String
  total : ℚ
  by_category : List LineItem
deriving Repr, DecidableEq

/-- Result shape of the API revenue/expenditure endpoints. -/
structure FinBreakdown7 where
  code : String
  total : ℚ
  by_category : List LineItem7
deriving Repr, DecidableEq

/-- Embedding of `bigquery_utils.get_entity_revenues` (the
`get_entity_expenditures` function in the same file is a verbatim copy over
the `Expenditures` table): fetch the entity's rows ordered by category,
normalize each with an eight-fund `Total`, and sum the totals. -/
def get_entity_revenues_bq (revenues : List FinRow) (code : String) : FinBreakdown :=
  let items := (rowsForCode revenues code).map normalizeRow8
  { code := code
    total := (items.map (fun i => i.Total)).sum
    by_category := items }

/-- Embedding of the `/api/v1/entities/code/revenues` endpoint of
`fiscal_data_api.py` (the expenditures endpoint runs the same computation on
the `Expenditures` table; the MS Access branch and the BigQuery branch of
the endpoint select the same seven fund columns): fetch the entity's rows
ordered by category, coalesce the seven selected funds, compute each row's
`Total` in Python as their sum, and accumulate the grand total. -/
def get_entity_revenues_api (revenues : List FinRow) (code : String) : FinBreakdown7 :=
  let items := (rowsForCode revenues code).map normalizeRow7
  { code := code
    total := (items.map (fun i => i.Total)).sum
    by_category := items }

/-- One row of the `UnitData` table left-joined with `UnitStats`: master
fields are non-null strings, statistics fields are nullable numerics. -/
structure UnitRow where
  Code : String
  UnitName : String
  EntityType : String
  County : String
  Pop : Option ℚ
  EAV : Option ℚ
  FULL_EMP : Option ℚ
  PART_EMP : Option ℚ
deriving Repr, DecidableEq

/-- Metric expression of the ranking operations, per the
`metric_expressions` / `metric_columns` tables of the two sources:
`population` is the nullable `us.Pop`, `eav` the nullable `us.EAV`, and
`employees` is `COALESCE(FULL_EMP, 0) + COALESCE(PART_EMP, 0)` (never
null).  An unknown metric name yields `none` for every row; both sources
reject unknown metric names before building the query. -/
def metricValue (metric : String) (u : UnitRow) : Option ℚ :=
  if metric = "population" then u.Pop
  else if metric = "eav" then u.EAV
  else if metric = "employees" then some (coalesce u.FULL_EMP + coalesce u.PART_EMP)
  else none

/-- Optional entity-type and county filters of the ranking queries
(case-insensitive equality in SQL; embedded as equality after `toLower`). -/
def rankFilters (entity_type county : Option String) (u : UnitRow) : Bool :=
  (match entity_type with
   | some t => u.EntityType.toLower = t.toLower
   | none => true) &&
  (match county with
   | some c => u.County.toLower = c.toLower
   | none => true)

/-- Rows eligible for ranking: the optional filters hold and the metric
value is not null (`AND metric_expr IS NOT NULL`). -/
def rankEligible (metric : String) (entity_type county : Option String)
    (db : List UnitRow) : List UnitRow :=
  db.filter (fun u => rankFilters entity_type county u && (metricValue metric u).isSome)

/-- Sort relation of `ORDER BY metric_expr DESC` (when `desc` is true) or
`ASC`; ties keep the stable input order. -/
def rankLe (metric : String) (desc : Bool) (a b : UnitRow) : Prop :=
  if desc then coalesce (metricValue metric b) ≤ coalesce (metricValue metric a)
  else coalesce (metricValue metric a) ≤ coalesce (metricValue metric b)

instance : (metric : String) → (desc : Bool) → DecidableRel (rankLe metric desc) :=
  fun metric desc a b => by unfold rankLe; infer_instance

/-- A ranked result row: the unit together with its `Rank` number and the
selected `MetricValue`. -/
structure RankedRow where
  unit : UnitRow
  MetricValue : ℚ
  Rank : Nat
deriving Repr, DecidableEq

/-- SQL `RANK() OVER (ORDER BY metric desc/asc)` over a window: one plus
the number of rows of the window that sort strictly before the given row
(strictly greater metric for `DESC`, strictly smaller for `ASC`).  Tied
values share a rank and the next rank skips. -/
def sqlRank (metric : String) (desc : Bool) (window : List UnitRow) (u : UnitRow) : Nat :=
  1 + (window.filter (fun v =>
    if desc then coalesce (metricValue metric u) < coalesce (metricValue metric v)
    else coalesce (metricValue metric v) < coalesce (metricValue metric u))).length

/-- Embedding of `bigquery_utils.rank_entities_by_metric` (and of the
BigQuery branch of the `/entities/rank` endpoint): filter to eligible rows,
attach `RANK()` computed over the whole eligible window, order by the
metric, and keep the first `limit` rows. -/
def rank_entities_bq (metric : String) (entity_type county : Option String)
    (desc : Bool) (limit : Nat) (db : List UnitRow) : List RankedRow :=
  let elig := rankEligible metric entity_type county db
  let sorted := elig.insertionSort (rankLe metric desc)
  (sorted.take limit).map (fun u =>
    { unit := u
      MetricValue := coalesce (metricValue metric u)
      Rank := sqlRank metric desc elig u })

/-- Embedding of the MS Access branch of the `/entities/rank` endpoint of
`fiscal_data_api.py`: `SELECT TOP limit ... ORDER BY metric` followed by the
Python loop `for i, r in enumerate(rankings): r.Rank = i + 1`, which numbers
the returned rows sequentially from 1. -/
def rank_entities_access (metric : String) (entity_type county : Option String)
    (desc : Bool) (limit : Nat) (db : List UnitRow) : List RankedRow :=
  let elig := rankEligible metric entity_type county db
  let sorted := elig.insertionSort (rankLe metric desc)
  ((sorted.take limit).enum).map (fun p =>
    { unit := p.2
      MetricValue := coalesce (metricValue metric p.2)
      Rank := p.1 + 1 })

/-- One row of the `Pensions` table, most-recent-year columns: for each of
the four sub-systems IMRF, Police, Fire, OPEB the nullable total liability
(`t501_3`), plan assets (`t502_3`), net position (`t503_3`) and funded
ratio (`t504_3`, a percentage). -/
structure PensionRow where
  Code : String
  IMRF_TotalLiability : Option ℚ
  IMRF_PlanAssets : Option ℚ
  IMRF_NetPosition : Option ℚ
  IMRF_FundedRatio : Option ℚ
  Police_TotalLiability : Option ℚ
  Police_PlanAssets : Option ℚ
  Police_NetPosition : Option ℚ
  Police_FundedRatio : Option ℚ
  Fire_TotalLiability : Option ℚ
  Fire_PlanAssets : Option ℚ
  Fire_NetPosition : Option ℚ
  Fire_FundedRatio : Option ℚ
  OPEB_TotalLiability : Option ℚ
  OPEB_PlanAssets : Option ℚ
  OPEB_NetPosition : Option ℚ
  OPEB_FundedRatio : Option ℚ
deriving Repr, DecidableEq

/-- Normalized pension sub-system entry as built by
`bigquery_utils.get_entity_pensions`, with nulls coerced to zero. -/
structure PensionSystem where
  total_liability : ℚ
  plan_assets : ℚ
  net_position : ℚ
  funded_ratio : ℚ
deriving Repr, DecidableEq

/-- Raw columns of one sub-system of a pension row, selected by name in the
order the Python loop iterates: IMRF, Police, Fire, OPEB. -/
def pensionColumns (r : PensionRow) : List (String × (Option ℚ × Option ℚ × Option ℚ × Option ℚ)) :=
  [("IMRF", (r.IMRF_TotalLiability, r.IMRF_PlanAssets, r.IMRF_NetPosition, r.IMRF_FundedRatio)),
   ("Police", (r.Police_TotalLiability, r.Police_PlanAssets, r.Police_NetPosition, r.Police_FundedRatio)),
   ("Fire", (r.Fire_TotalLiability, r.Fire_PlanAssets, r.Fire_NetPosition, r.Fire_FundedRatio)),
   ("OPEB", (r.OPEB_TotalLiability, r.OPEB_PlanAssets, r.OPEB_NetPosition, r.OPEB_FundedRatio))]

/-- Embedding of the structuring loop of `bigquery_utils.get_entity_pensions`:
a sub-system is included exactly when its coalesced total liability is
strictly positive; included systems carry the coalesced four numbers.  When
no row exists for the code the mapping is empty. -/
def pension_systems_of (row : Option PensionRow) : List (String × PensionSystem) :=
  match row with
  | none => []
  | some r =>
    (pensionColumns r).filterMap (fun s =>
      let liability := coalesce s.2.1
      if liability > 0 then
        some (s.1,
          { total_liability := liability
            plan_assets := coalesce s.2.2.1
            net_position := coalesce s.2.2.2.1
            funded_ratio := coalesce s.2.2.2.2 })
      else none)

/-- Embedding of `bigquery_utils.get_entity_pensions` over the table:
`WHERE Code = @code` takes the first matching row. -/
def get_entity_pensions_bq (pensions : List PensionRow) (code : String) :
    List (String × PensionSystem) :=
  pension_systems_of (pensions.find? (fun r => r.Code = code))

/-- Threshold triple of `_rate_metric` (values for the keys `excellent`,
`good` and `fair` of a `FISCAL_HEALTH_THRESHOLDS` entry). -/
structure Thresholds where
  excellent : ℚ
  good : ℚ
  fair : ℚ
deriving Repr, DecidableEq

/-- `FISCAL_HEALTH_THRESHOLDS` entry for the operating margin. -/
def operatingMarginThresholds : Thresholds := { excellent := 5/100, good := 0, fair := -5/100 }

/-- `FISCAL_HEALTH_THRESHOLDS` entry for the fund balance ratio. -/
def fundBalanceThresholds : Thresholds := { excellent := 25/100, good := 15/100, fair := 8/100 }

/-- `FISCAL_HEALTH_THRESHOLDS` entry for the pension funded ratio (the
fourth key of that entry is named `critical` and is never read by
`_rate_metric`). -/
def pensionRatioThresholds : Thresholds := { excellent := 80/100, good := 60/100, fair := 40/100 }

/-- Embedding of `fiscal_tools._rate_metric`: first rating whose inclusive
lower bound the value meets, falling through to Poor. -/
def rate_metric (value : ℚ) (t : Thresholds) : String :=
  if value ≥ t.excellent then "Excellent"
  else if value ≥ t.good then "Good"
  else if value ≥ t.fair then "Fair"
  else "Poor"

/-- Embedding of `fiscal_tools._rate_debt_per_capita` with the
`debt_per_capita` entry of `FISCAL_HEALTH_THRESHOLDS` (low 1000, moderate
2500, high 5000): first rating whose inclusive upper bound the value
meets, falling through to Very High. -/
def rate_debt_per_capita (value : ℚ) : String :=
  if value ≤ 1000 then "Low"
  else if value ≤ 2500 then "Moderate"
  else if value ≤ 5000 then "High"
  else "Very High"

/-- Round-half-to-even of a rational to an integer, the idealized semantics
of the Python built-in `round`. -/
def roundHalfEven (q : ℚ) : ℤ :=
  let f := ⌊q⌋
  let frac := q - f
  if frac < 1/2 then f
  else if frac > 1/2 then f + 1
  else if 2 ∣ f then f else f + 1

/-- Idealized semantics of the Python `round(x, 2)` used throughout the
scoring and comparison code: round half-to-even at two decimal places. -/
def pythonRound2 (q : ℚ) : ℚ := (roundHalfEven (q * 100) : ℚ) / 100

/-- Fund-balance line item as returned by
`bigquery_utils.get_entity_fund_balances`: the eight coalesced fund columns
(no `Total` column is computed for fund balances). -/
structure FundBalanceItem where
  Category : String
  GeneralFund : ℚ
  SpecialRevenue : ℚ
  CapitalProjects : ℚ
  DebtService : ℚ
  Enterprise : ℚ
  Trust : ℚ
  Fiduciary : ℚ
  DebtPrincipal : ℚ
deriving Repr, DecidableEq

/-- SELECT list of `get_entity_fund_balances`: coalesce the eight fund
columns of a `FundBalances` row. -/
def normalizeFundBalance (r : FinRow) : FundBalanceItem :=
  { Category := r.Category
    GeneralFund := coalesce r.GN
    SpecialRevenue := coalesce r.SR
    CapitalProjects := coalesce r.CP
    DebtService := coalesce r.DS
    Enterprise := coalesce r.EP
    Trust := coalesce r.TS
    Fiduciary := coalesce r.FD
    DebtPrincipal := coalesce r.DP }

/-- Embedding of `bigquery_utils.get_entity_fund_balances`: the entity's
fund-balance rows ordered by category, each with nulls coerced to zero. -/
def get_entity_fund_balances_bq (fund_balances : List FinRow) (code : String) :
    List FundBalanceItem :=
  (rowsForCode fund_balances code).map normalizeFundBalance

/-- One row of the `Indebtedness` table restricted to the columns the debt
operations read for the total: the nullable ending long-term (`t404`) and
ending short-term (`t410`) totals.  The per-debt-type detail columns that
both sources also select do not enter any total and are elided here. -/
structure DebtRow where
  Code : String
  t404 : Option ℚ
  t410 : Option ℚ
deriving Repr, DecidableEq

/-- Coalesced detail pair returned in the `details` payload of the debt
operations. -/
structure DebtDetails where
  TotalDebt_LongTerm : ℚ
  TotalDebt_ShortTerm : ℚ
deriving Repr, DecidableEq

/-- Response of the debt operations (`bigquery_utils.get_entity_debt` and
the `/entities/code/debt` endpoint, whose total logic is identical): total
debt plus the detail row when one exists.  `details = none` models the
empty `details` dictionary of the defaulted record. -/
structure DebtResponse where
  status : String
  code : String
  total_debt : ℚ
  details : Option DebtDetails
deriving Repr, DecidableEq

/-- Embedding of `bigquery_utils.get_entity_debt` / the debt endpoint:
`WHERE Code = @code` takes the first matching row; when one exists the
total is the coalesced ending long-term plus ending short-term totals, and
when none exists a defaulted zero record is returned with the same
`success` status, not an error and not a not-found result. -/
def get_entity_debt (indebtedness : List DebtRow) (code : String) : DebtResponse :=
  match indebtedness.find? (fun r => r.Code = code) with
  | some r =>
    { status := "success"
      code := code
      total_debt := coalesce r.t404 + coalesce r.t410
      details := some { TotalDebt_LongTerm := coalesce r.t404
                        TotalDebt_ShortTerm := coalesce r.t410 } }
  | none =>
    { status := "success", code := code, total_debt := 0, details := none }

/-- Database of the tables the composite operations read. -/
structure Database where
  units : List UnitRow
  revenues : List FinRow
  expenditures : List FinRow
  fund_balances : List FinRow
  indebtedness : List DebtRow
  pensions : List PensionRow

/-- Embedding of `bigquery_utils.get_entity_by_code`: `WHERE ud.Code =
@code LIMIT 1` gives the first unit row with that code, or nothing. -/
def get_entity_by_code (db : Database) (code : String) : Option UnitRow :=
  db.units.find? (fun u => u.Code = code)

/-- Unassigned fund balance lookup of `calculate_fiscal_health_score`: the
`GeneralFund` amount of the first fund-balance line with category `307t`,
zero when no such line exists. -/
def unassignedBalance (items : List FundBalanceItem) : ℚ :=
  match items.find? (fun fb => fb.Category = "307t") with
  | some fb => fb.GeneralFund
  | none => 0

/-- One rated indicator of the fiscal health score: the displayed value
(a percentage or dollar amount rounded to two decimals), its unit, and the
qualitative rating. -/
structure MetricEntry where
  value : ℚ
  unit : String
  rating : String
deriving Repr, DecidableEq

/-- The four optional indicators of the fiscal health score; an indicator
that is `none` is omitted from the metrics mapping. -/
structure HealthMetrics where
  operating_margin : Option MetricEntry
  fund_balance_ratio : Option MetricEntry
  debt_per_capita : Option MetricEntry
  pension_funded_ratio : Option MetricEntry
deriving Repr, DecidableEq

/-- Raw inputs echoed back by `calculate_fiscal_health_score`. -/
structure RawValues where
  total_revenue : ℚ
  total_expenditure : ℚ
  unassigned_fund_balance : ℚ
  total_debt : ℚ
  population : ℚ
deriving Repr, DecidableEq

/-- Result of `calculate_fiscal_health_score`: a terminal error when the
entity does not resolve, otherwise the metrics and raw values. -/
inductive HealthResult where
  | error (error_message : String)
  | success (entity_code : String) (metrics : HealthMetrics) (raw_values : RawValues)
deriving Repr, DecidableEq

/-- Loop of the pension indicator of `calculate_fiscal_health_score`:
starting from 100, replace the running minimum by each funded ratio that is
strictly positive and strictly below it. -/
def lowestFundedLoop (systems : List (String × PensionSystem)) (init : ℚ) : ℚ :=
  systems.foldl (fun low s =>
    if s.2.funded_ratio > 0 ∧ s.2.funded_ratio < low then s.2.funded_ratio else low) init

/-- Pension indicator of `calculate_fiscal_health_score`: skipped when the
sub-system mapping is empty; otherwise run the minimum loop from 100 and
emit the indicator only when the result dropped below 100.  The value is
rounded to two decimals and the rating applies `_rate_metric` to the ratio
divided by 100. -/
def pensionIndicator (systems : List (String × PensionSystem)) : Option MetricEntry :=
  if systems = [] then none
  else
    let lowest := lowestFundedLoop systems 100
    if lowest < 100 then
      some { value := pythonRound2 lowest
             unit := "percent"
             rating := rate_metric (lowest / 100) pensionRatioThresholds }
    else none

/-- Embedding of `fiscal_tools.calculate_fiscal_health_score`: resolve the
entity (a terminal error when absent), pull totals from the revenue,
expenditure, fund-balance, debt and pension operations, and emit each of
the four indicators under its guard: operating margin when revenue is
positive, fund-balance ratio when expenditure is positive, debt per capita
when population is positive, pension funded ratio per `pensionIndicator`. -/
def calculate_fiscal_health_score (db : Database) (code : String) : HealthResult :=
  match get_entity_by_code db code with
  | none => .error "entity not found"
  | some entity =>
    let total_revenue := (get_entity_revenues_bq db.revenues code).total
    let total_expenditure := (get_entity_revenues_bq db.expenditures code).total
    let total_debt := (get_entity_debt db.indebtedness code).total_debt
    let population := coalesce entity.Pop
    let unassigned := unassignedBalance (get_entity_fund_balances_bq db.fund_balances code)
    let metrics : HealthMetrics :=
      { operating_margin :=
          if total_revenue > 0 then
            let margin := (total_revenue - total_expenditure) / total_revenue
            some { value := pythonRound2 (margin * 100)
                   unit := "percent"
                   rating := rate_metric margin operatingMarginThresholds }
          else none
        fund_balance_ratio :=
          if total_expenditure > 0 then
            let ratio := unassigned / total_expenditure
            some { value := pythonRound2 (ratio * 100)
                   unit := "percent"
                   rating := rate_metric ratio fundBalanceThresholds }
          else none
        debt_per_capita :=
          if population > 0 then
            let dpc := total_debt / population
            some { value := pythonRound2 dpc
                   unit := "dollars"
                   rating := rate_debt_per_capita dpc }
          else none
        pension_funded_ratio :=
          pensionIndicator (get_entity_pensions_bq db.pensions code) }
    .success code metrics
      { total_revenue := total_revenue
        total_expenditure := total_expenditure
        unassigned_fund_balance := unassigned
        total_debt := total_debt
        population := population }

/-- One comparison row of `fiscal_tools.compare_entities`: identity fields,
population and EAV with nulls as zero, the revenue and expenditure totals,
and per-capita figures that divide only when population is positive. -/
structure CompareRow where
  code : String
  name : String
  type : String
  county : String
  population : ℚ
  eav : ℚ
  total_revenue : ℚ
  total_expenditure : ℚ
  revenue_per_capita : ℚ
  expenditure_per_capita : ℚ
deriving Repr, DecidableEq

/-- Row construction of the loop body of `fiscal_tools.compare_entities`
for a resolved entity: totals come from the revenue and expenditure
operations, and each per-capita figure is `round(total / population, 2)`
when the population is strictly positive and the literal `0` otherwise (no
division is performed in that case). -/
def mkCompareRow (db : Database) (code : String) (e : UnitRow) : CompareRow :=
  let population := coalesce e.Pop
  let total_rev := (get_entity_revenues_bq db.revenues code).total
  let total_exp := (get_entity_revenues_bq db.expenditures code).total
  { code := code
    name := e.UnitName
    type := e.EntityType
    county := e.County
    population := population
    eav := coalesce e.EAV
    total_revenue := total_rev
    total_expenditure := total_exp
    revenue_per_capita := if population > 0 then pythonRound2 (total_rev / population) else 0
    expenditure_per_capita := if population > 0 then pythonRound2 (total_exp / population) else 0 }

/-- Response envelope of `fiscal_tools.compare_entities`.  The source
returns a status dictionary; error responses carry no count and no rows,
modelled as zero and the empty list. -/
structure CompareResponse where
  status : String
  error_message : Option String
  entity_count : Nat
  comparison : List CompareRow
deriving Repr, DecidableEq

/-- Embedding of `fiscal_tools.compare_entities` on the stripped code list:
fewer than 2 codes or more than 10 is a validation error; otherwise each
code that resolves contributes a row and each code that does not resolve is
silently dropped, with `entity_count` the number of rows built. -/
def compare_entities_tool (db : Database) (codes : List String) : CompareResponse :=
  if codes.length < 2 then
    { status := "error"
      error_message := some "Please provide at least 2 entity codes separated by commas."
      entity_count := 0, comparison := [] }
  else if codes.length > 10 then
    { status := "error"
      error_message := some "Maximum 10 entities can be compared at once."
      entity_count := 0, comparison := [] }
  else
    let comparisons := codes.filterMap (fun code =>
      (get_entity_by_code db code).map (mkCompareRow db code))
    { status := "success", error_message := none
      entity_count := comparisons.length, comparison := comparisons }

/-- One comparison row of the `/api/v1/entities/compare` endpoint: only the
unit master and statistics columns are selected; no revenue, expenditure or
per-capita figure appears in the endpoint's SELECT or post-processing. -/
structure ApiCompareRow where
  Code : String
  UnitName : String
  EntityType : String
  County : String
  Population : Option ℚ
  EAV : Option ℚ
deriving Repr, DecidableEq

/-- Response envelope of the `/api/v1/entities/compare` endpoint. -/
structure ApiCompareResponse where
  status : String
  error_message : Option String
  entity_count : Nat
  comparison : List ApiCompareRow
deriving Repr, DecidableEq

/-- Embedding of the `/api/v1/entities/compare` endpoint of
`fiscal_data_api.py` on the stripped non-empty code list: fewer than 2
codes is a validation error; there is no upper bound on the number of
codes.  Each code that resolves contributes its unit row; unresolved codes
are silently dropped. -/
def compare_entities_api (db : Database) (codes : List String) : ApiCompareResponse :=
  if codes.length < 2 then
    { status := "error"
      error_message := some "Provide at least 2 entity codes"
      entity_count := 0, comparison := [] }
  else
    let comparisons := codes.filterMap (fun code =>
      (get_entity_by_code db code).map (fun u =>
        { Code := u.Code, UnitName := u.UnitName, EntityType := u.EntityType
          County := u.County, Population := u.Pop, EAV := u.EAV : ApiCompareRow }))
    { status := "success", error_message := none
      entity_count := comparisons.length, comparison := comparisons }

/-- Split a character list at every slash, embedding the Python
`code.split("/")`: empty segments are kept and the empty input yields one
empty segment. -/
def splitOnSlash : List Char → List (List Char)
  | [] => [[]]
  | c :: t =>
    let rest := splitOnSlash t
    if c = '/' then [] :: rest
    else
      match rest with
      | [] => [[c]]
      | h :: t2 => (c :: h) :: t2

/-- Whitespace test of the Python `str.strip`. -/
def isSpaceChar (c : Char) : Bool :=
  c = ' ' ∨ c = '\t' ∨ c = '\n' ∨ c = '\r'

/-- Strip leading and trailing whitespace from a character list, embedding
the Python `str.strip()`. -/
def trimChars (cs : List Char) : List Char :=
  ((cs.dropWhile isSpaceChar).reverse.dropWhile isSpaceChar).reverse

/-- Embedding of `root_agent._is_valid_entity_code`: an empty string is
invalid; otherwise split on the slash character, require exactly three
parts, each non-empty after stripping whitespace. -/
def is_valid_entity_code (code : String) : Bool :=
  if code = "" then false
  else
    let parts := splitOnSlash code.data
    if parts.length ≠ 3 then false
    else parts.all (fun p => ¬ trimChars p = [])

/-- Embedding of the entity-code branch of `root_agent.tool_usage_guardrail`:
the guardrail blocks the tool call (returning a validation-error payload)
exactly when the `entity_code` argument is truthy — that is, non-empty —
and fails the format check.  An empty code is falsy in Python, so the
guardrail lets it through. -/
def tool_usage_guardrail (entity_code : String) : Option String :=
  if entity_code ≠ "" ∧ is_valid_entity_code entity_code = false then
    some "Invalid entity code format. Expected format: XXX/YYY/ZZ"
  else none

/-- Outcome of running a tool behind the guardrail, recording whether the
backend was queried: `noBackend` means the call was answered before any
backend query was issued, `backend` means the tool executed and issued its
query. -/
inductive Outcome (α : Type) where
  | noBackend (resp : α)
  | backend (resp : α)
deriving Repr, DecidableEq

/-- Response payload of an `Outcome`. -/
def Outcome.resp : Outcome α → α
  | .noBackend r => r
  | .backend r => r

/-- Whether the backend was queried in an `Outcome`. -/
def Outcome.queried : Outcome α → Bool
  | .noBackend _ => false
  | .backend _ => true

/-- Response envelope of `get_entity_details` and of the guardrail error. -/
structure DetailsResponse where
  status : String
  error_message : Option String
  entity : Option UnitRow
deriving Repr, DecidableEq

/-- Embedding of `fiscal_tools.get_entity_details`: the tool itself
performs no format validation, queries the backend unconditionally, and
reports an error when the code resolves to nothing. -/
def get_entity_details (db : Database) (code : String) : DetailsResponse :=
  match get_entity_by_code db code with
  | none =>
    { status := "error"
      error_message := some "Entity with the given code was not found.", entity := none }
  | some e => { status := "success", error_message := none, entity := some e }

/-- The agent pipeline for an entity-details call: the before-tool
guardrail runs first and, when it returns a payload, the tool is never
executed and no backend query is issued; otherwise the tool runs and
queries the backend. -/
def guarded_get_entity_details (db : Database) (code : String) : Outcome DetailsResponse :=
  match tool_usage_guardrail code with
  | some msg => .noBackend { status := "error", error_message := some msg, entity := none }
  | none => .backend (get_entity_details db code)

/-- Whether the first character list is an initial segment of the second. -/
def charsStartWith : List Char → List Char → Bool
  | [], _ => true
  | _ :: _, [] => false
  | a :: as, b :: bs => a = b && charsStartWith as bs

/-- Whether the first character list occurs contiguously in the second. -/
def charsContain (needle hay : List Char) : Bool :=
  charsStartWith needle hay ||
    match hay with
    | [] => false
    | _ :: t => charsContain needle t

/-- Lower-cased character list of a string, embedding SQL `LOWER`. -/
def lowerChars (s : String) : List Char := s.data.map Char.toLower

/-- Case-insensitive substring test embedding SQL
`LOWER(field) LIKE LOWER(CONCAT(percent, term, percent))`. -/
def likeContains (field term : String) : Bool :=
  charsContain (lowerChars term) (lowerChars field)

/-- WHERE clause of `bigquery_utils.search_entities`: the term occurs
case-insensitively in the unit name or in the county name. -/
def matchesSearch (term : String) (u : UnitRow) : Bool :=
  likeContains u.UnitName term || likeContains u.County term

/-- Sort tier of the search ORDER BY: 0 for an exact case-insensitive name
match, 1 for a name starting with the term, 2 otherwise. -/
def searchTier (term : String) (u : UnitRow) : Nat :=
  if lowerChars u.UnitName = lowerChars term then 0
  else if charsStartWith (lowerChars term) (lowerChars u.UnitName) then 1
  else 2

/-- Search ordering: by tier, then alphabetically by unit name. -/
def searchLe (term : String) (a b : UnitRow) : Prop :=
  searchTier term a < searchTier term b ∨
    (searchTier term a = searchTier term b ∧ a.UnitName ≤ b.UnitName)

instance : (term : String) → DecidableRel (searchLe term) :=
  fun term a b => by unfold searchLe; infer_instance

/-- Embedding of `bigquery_utils.search_entities`: rows matching the term,
ordered by the exact/starts-with/other tier then name, first `limit`. -/
def search_entities_bq (db : Database) (term : String) (limit : Nat) : List UnitRow :=
  ((db.units.filter (matchesSearch term)).insertionSort (searchLe term)).take limit

/-- Response envelope of `fiscal_tools.search_government_entity`. -/
structure SearchResponse where
  status : String
  message : Option String
  count : Nat
  entities : List UnitRow
deriving Repr, DecidableEq

/-- Embedding of `fiscal_tools.search_government_entity`: a term that is
empty or shorter than 2 characters is rejected before any backend call; an
empty result set yields the distinct `not_found` status; otherwise the
matches are returned with their count.  The backend limit is the tool's
fixed 10. -/
def search_government_entity (db : Database) (term : String) : Outcome SearchResponse :=
  if term = "" ∨ term.length < 2 then
    .noBackend { status := "error"
                 message := some "Please provide at least 2 characters to search."
                 count := 0, entities := [] }
  else
    let results := search_entities_bq db term 10
    if results = [] then
      .backend { status := "not_found"
                 message := some "No entities found matching the search term."
                 count := 0, entities := [] }
    else
      .backend { status := "success", message := none
                 count := results.length, entities := results }

/-- Empty database fixture. -/
def dbEmpty : Database :=
  { units := [], revenues := [], expenditures := [], fund_balances := []
    indebtedness := [], pensions := [] }

/-- A revenue row whose only non-null amount is a Debt Principal of 5. -/
def dpOnlyRow : FinRow :=
  { Code := "016/020/32", Category := "201t", GN := none, SR := none, CP := none
    DS := none, EP := none, TS := none, FD := none, DP := some 5 }

/-- Eleven entity codes, one more than the documented comparison cap. -/
def codes11 : List String :=
  ["a1", "a2", "a3", "a4", "a5", "a6", "a7", "a8", "a9", "a10", "a11"]

/-- Witness entity: population 100, EAV 1000. -/
def uW : UnitRow :=
  { Code := "016/020/32", UnitName := "Village of Skokie", EntityType := "Village"
    County := "Cook", Pop := some 100, EAV := some 1000
    FULL_EMP := some 10, PART_EMP := none }

/-- Witness revenue row: General 300 plus Special Revenue 200. -/
def revW : FinRow :=
  { Code := "016/020/32", Category := "201t", GN := some 300, SR := some 200, CP := none
    DS := none, EP := none, TS := none, FD := none, DP := none }

/-- Witness expenditure row: General 400. -/
def expW : FinRow :=
  { Code := "016/020/32", Category := "251t", GN := some 400, SR := none, CP := none
    DS := none, EP := none, TS := none, FD := none, DP := none }

/-- Witness fund-balance row: Unassigned (`307t`), General Fund 50. -/
def fbW : FinRow :=
  { Code := "016/020/32", Category := "307t", GN := some 50, SR := none, CP := none
    DS := none, EP := none, TS := none, FD := none, DP := none }

/-- Witness indebtedness row: ending long-term 100, ending short-term 20. -/
def debtW : DebtRow := { Code := "016/020/32", t404 := some 100, t410 := some 20 }

/-- Witness pension row: only IMRF applies, liability 10, funded ratio 50. -/
def penW : PensionRow :=
  { Code := "016/020/32"
    IMRF_TotalLiability := some 10, IMRF_PlanAssets := some 5
    IMRF_NetPosition := some 5, IMRF_FundedRatio := some 50
    Police_TotalLiability := none, Police_PlanAssets := none
    Police_NetPosition := none, Police_FundedRatio := none
    Fire_TotalLiability := none, Fire_PlanAssets := none
    Fire_NetPosition := none, Fire_FundedRatio := none
    OPEB_TotalLiability := none, OPEB_PlanAssets := none
    OPEB_NetPosition := none, OPEB_FundedRatio := none }

/-- Witness database holding the rows above. -/
def dbW : Database :=
  { units := [uW], revenues := [revW], expenditures := [expW]
    fund_balances := [fbW], indebtedness := [debtW], pensions := [penW] }

/-- Ranking fixture unit with population 100. -/
def ru1 : UnitRow :=
  { Code := "r1", UnitName := "Alpha", EntityType := "Village", County := "Cook"
    Pop := some 100, EAV := none, FULL_EMP := none, PART_EMP := none }

/-- Ranking fixture unit with population 500. -/
def ru2 : UnitRow :=
  { Code := "r2", UnitName := "Beta", EntityType := "Village", County := "Cook"
    Pop := some 500, EAV := none, FULL_EMP := none, PART_EMP := none }

/-- Ranking fixture unit with population 300. -/
def ru3 : UnitRow :=
  { Code := "r3", UnitName := "Gamma", EntityType := "Village", County := "Cook"
    Pop := some 300, EAV := none, FULL_EMP := none, PART_EMP := none }

/-- Ranking fixture unit with population 500, tied with `ru2`. -/
def ru4 : UnitRow :=
  { Code := "r4", UnitName := "Delta", EntityType := "Village", County := "Cook"
    Pop := some 500, EAV := none, FULL_EMP := none, PART_EMP := none }

/-- Ranking fixture with populations 100, 500, 300, 500. -/
def rankFixture : List UnitRow := [ru1, ru2, ru3, ru4]

/-- Pension row whose only applicable sub-system (IMRF, liability 10) has
an overfunded ratio of 150 percent. -/
def pen150 : PensionRow :=
  { Code := "016/020/32"
    IMRF_TotalLiability := some 10, IMRF_PlanAssets := some 15
    IMRF_NetPosition := some (-5), IMRF_FundedRatio := some 150
    Police_TotalLiability := none, Police_PlanAssets := none
    Police_NetPosition := none, Police_FundedRatio := none
    Fire_TotalLiability := none, Fire_PlanAssets := none
    Fire_NetPosition := none, Fire_FundedRatio := none
    OPEB_TotalLiability := none, OPEB_PlanAssets := none
    OPEB_NetPosition := none, OPEB_FundedRatio := none }

/-- Strictly positive funded ratios of a sub-system list, in order. -/
def posRatios (systems : List (String × PensionSystem)) : List ℚ :=
  (systems.map (fun s => s.2.funded_ratio)).filter (fun r => 0 < r)

/-- Specification predicate for the first three fiscal health indicators,
following the spec: the score resolves to a success whose raw values come
from the adapter operations (with the unassigned balance looked up as the
General-Fund amount of the fund-balance line with category `307t`, zero if
absent), the operating margin is present exactly when total revenue is
positive with value `(revenue - expenditure) / revenue` (stored as a
percentage rounded to two decimals), the fund-balance ratio is present
exactly when total expenditure is positive with value
`unassigned / expenditure` (stored likewise), and debt per capita is
present exactly when population is positive with value
`total_debt / population` rounded to two decimals. -/
def healthScoreSpec (db : Database) (code : String) (entity : UnitRow) : Prop :=
  ∃ metrics raw, calculate_fiscal_health_score db code = .success code metrics raw ∧
    raw.total_revenue = (get_entity_revenues_bq db.revenues code).total ∧
    raw.total_expenditure = (get_entity_revenues_bq db.expenditures code).total ∧
    raw.total_debt = (get_entity_debt db.indebtedness code).total_debt ∧
    raw.population = coalesce entity.Pop ∧
    raw.unassigned_fund_balance =
      (match (get_entity_fund_balances_bq db.fund_balances code).find?
          (fun fb => fb.Category = "307t") with
       | some fb => fb.GeneralFund
       | none => 0) ∧
    (metrics.operating_margin.isSome = true ↔ 0 < raw.total_revenue) ∧
    (∀ e, metrics.operating_margin = some e →
      e.value = pythonRound2 ((raw.total_revenue - raw.total_expenditure) /
        raw.total_revenue * 100)) ∧
    (metrics.fund_balance_ratio.isSome = true ↔ 0 < raw.total_expenditure) ∧
    (∀ e, metrics.fund_balance_ratio = some e →
      e.value = pythonRound2 (raw.unassigned_fund_balance / raw.total_expenditure * 100)) ∧
    (metrics.debt_per_capita.isSome = true ↔ 0 < raw.population) ∧
    (∀ e, metrics.debt_per_capita = some e →
      e.value = pythonRound2 (raw.total_debt / raw.population))

/-- C1 counterexample: on a revenue row whose only amount is a Debt
Principal of 5, the API (MS Access primary) path reports a line `Total` of
0 while the sum of all eight fund-type amounts is 5, and the two backends
report different grand totals for the same entity code — refuting the
claim that every returned `Total` equals the sum of all fund-type amounts
identically on both backends. -/
theorem C1_counterexample :
    (get_entity_revenues_api [dpOnlyRow] "016/020/32").by_category.map (fun i => i.Total) = [0] ∧
    fundSum8 dpOnlyRow = 5 ∧
    (get_entity_revenues_api [dpOnlyRow] "016/020/32").total ≠
      (get_entity_revenues_bq [dpOnlyRow] "016/020/32").total := by
  refine ⟨?_, ?_, ?_⟩ <;>
    simp [get_entity_revenues_api, get_entity_revenues_bq, rowsForCode, List.insertionSort,
      List.orderedInsert, normalizeRow7, normalizeRow8, fundSum7, fundSum8, coalesce, dpOnlyRow]

/-- C1 (amended): on the BigQuery-direct path every returned line item's
`Total` equals the sum of its eight fund-type amounts, while on the API
path it equals the sum of the seven fund-type amounts excluding Debt
Principal; on both paths the reported grand total equals the sum of the
per-item `Total`s.  The expenditure operations run the identical
computation over the `Expenditures` table. -/
theorem C1_total_consistency_amended (revenues : List FinRow) (code : String) :
    (∀ i ∈ (get_entity_revenues_bq revenues code).by_category,
      i.Total = i.GeneralFund + i.SpecialRevenue + i.CapitalProjects + i.DebtService +
        i.Enterprise + i.Trust + i.Fiduciary + i.DebtPrincipal) ∧
    (get_entity_revenues_bq revenues code).total =
      ((get_entity_revenues_bq revenues code).by_category.map (fun i => i.Total)).sum ∧
    (∀ i ∈ (get_entity_revenues_api revenues code).by_category,
      i.Total = i.GeneralFund + i.SpecialRevenue + i.CapitalProjects + i.DebtService +
        i.Enterprise + i.Trust + i.Fiduciary) ∧
    (get_entity_revenues_api revenues code).total =
      ((get_entity_revenues_api revenues code).by_category.map (fun i => i.Total)).sum := by
  refine ⟨?_, rfl, ?_, rfl⟩
  · intro i hi
    simp only [get_entity_revenues_bq, List.mem_map] at hi
    obtain ⟨r, _, rfl⟩ := hi
    simp [normalizeRow8, fundSum8]
  · intro i hi
    simp only [get_entity_revenues_api, List.mem_map] at hi
    obtain ⟨r, _, rfl⟩ := hi
    simp [normalizeRow7, fundSum7]

/-- C1 amended witness: the line built from the witness revenue row
satisfies the eight-fund total equation on the BigQuery path. -/
theorem C1_amended_witness :
    (normalizeRow8 revW).Total =
      (normalizeRow8 revW).GeneralFund + (normalizeRow8 revW).SpecialRevenue +
        (normalizeRow8 revW).CapitalProjects + (normalizeRow8 revW).DebtService +
        (normalizeRow8 revW).Enterprise + (normalizeRow8 revW).Trust +
        (normalizeRow8 revW).Fiduciary + (normalizeRow8 revW).DebtPrincipal :=
  (C1_total_consistency_amended [revW] "016/020/32").1 (normalizeRow8 revW)
    (List.mem_singleton.mpr rfl)

/-- C4: the operating-margin classifier uses inclusive lower bounds —
Excellent exactly on values at least 0.05, Good on [0, 0.05), Fair on
[-0.05, 0), Poor below -0.05 — and the debt-per-capita classifier uses
inclusive upper bounds — Low up to 1000, Moderate on (1000, 2500], High on
(2500, 5000], Very High above 5000. -/
theorem C4_rating_boundaries (v : ℚ) :
    (rate_metric v operatingMarginThresholds = "Excellent" ↔ 5/100 ≤ v) ∧
    (rate_metric v operatingMarginThresholds = "Good" ↔ 0 ≤ v ∧ v < 5/100) ∧
    (rate_metric v operatingMarginThresholds = "Fair" ↔ -(5/100) ≤ v ∧ v < 0) ∧
    (rate_metric v operatingMarginThresholds = "Poor" ↔ v < -(5/100)) ∧
    (rate_debt_per_capita v = "Low" ↔ v ≤ 1000) ∧
    (rate_debt_per_capita v = "Moderate" ↔ 1000 < v ∧ v ≤ 2500) ∧
    (rate_debt_per_capita v = "High" ↔ 2500 < v ∧ v ≤ 5000) ∧
    (rate_debt_per_capita v = "Very High" ↔ 5000 < v) := by
  simp only [rate_metric, rate_debt_per_capita, operatingMarginThresholds]
  split_ifs <;>
    refine ⟨?_, ?_, ?_, ?_, ?_, ?_, ?_, ?_⟩ <;>
    first
      | exact iff_of_true rfl (by linarith)
      | exact iff_of_true rfl ⟨by linarith, by linarith⟩
      | exact iff_of_false (by decide) (by intro h; linarith)

/-- C6 counterexample: the `/api/v1/entities/compare` endpoint accepts
eleven entity codes and answers with a success envelope, refuting the
claim that every comparison operation rejects more than 10 codes with a
validation error. -/
theorem C6_counterexample :
    codes11.length = 11 ∧
    (compare_entities_api dbEmpty codes11).status = "success" ∧
    (compare_entities_api dbEmpty codes11).status ≠ "error" := by
  refine ⟨by decide, by decide, by decide⟩

/-- C6 (amended): the tool-layer comparison rejects fewer than 2 or more
than 10 codes and, for a valid request, silently drops unresolved codes,
reports `entity_count` equal to the number of resolved entities and a full
metric row (name, type, county, population, EAV, totals and per-capita
figures) per resolved entity; the API-layer comparison endpoint rejects
only fewer than 2 codes — it has no upper bound — and reports unit master
fields without revenue, expenditure or per-capita figures, equally
dropping unresolved codes silently. -/
theorem C6_compare_amended (db : Database) (codes : List String) :
    (codes.length < 2 → (compare_entities_tool db codes).status = "error" ∧
      (compare_entities_api db codes).status = "error") ∧
    (10 < codes.length → (compare_entities_tool db codes).status = "error") ∧
    (2 ≤ codes.length → codes.length ≤ 10 →
      compare_entities_tool db codes =
        { status := "success", error_message := none
          entity_count := (codes.filterMap (fun c =>
            (get_entity_by_code db c).map (mkCompareRow db c))).length
          comparison := codes.filterMap (fun c =>
            (get_entity_by_code db c).map (mkCompareRow db c)) }) ∧
    (2 ≤ codes.length →
      compare_entities_api db codes =
        { status := "success", error_message := none
          entity_count := (codes.filterMap (fun c =>
            (get_entity_by_code db c).map (fun u =>
              { Code := u.Code, UnitName := u.UnitName, EntityType := u.EntityType
                County := u.County, Population := u.Pop, EAV := u.EAV : ApiCompareRow }))).length
          comparison := codes.filterMap (fun c =>
            (get_entity_by_code db c).map (fun u =>
              { Code := u.Code, UnitName := u.UnitName, EntityType := u.EntityType
                County := u.County, Population := u.Pop, EAV := u.EAV : ApiCompareRow })) }) := by
  unfold compare_entities_tool compare_entities_api
  refine ⟨fun h => ?_, fun h => ?_, fun h2 h10 => ?_, fun h2 => ?_⟩
  · rw [if_pos h, if_pos h]
    exact ⟨rfl, rfl⟩
  · rw [if_neg (by omega), if_pos h]
  · rw [if_neg (by omega), if_neg (by omega)]
  · rw [if_neg (by omega)]

/-- C6 amended witness: a two-code request against the witness database
returns the success envelope with the resolved rows. -/
theorem C6_amended_witness :
    compare_entities_tool dbW ["016/020/32", "999/999/99"] =
      { status := "success", error_message := none
        entity_count := ((["016/020/32", "999/999/99"] : List String).filterMap (fun c =>
          (get_entity_by_code dbW c).map (mkCompareRow dbW c))).length
        comparison := (["016/020/32", "999/999/99"] : List String).filterMap (fun c =>
          (get_entity_by_code dbW c).map (mkCompareRow dbW c)) } :=
  (C6_compare_amended dbW ["016/020/32", "999/999/99"]).2.2.1 (by decide) (by decide)

/-- C7 counterexample: the empty entity code is malformed (it is not three
non-empty slash-separated segments), yet the guardrail lets it through —
`if code and not valid` is false for a falsy empty string — so the tool
executes and a backend query is issued, refuting the claim that no backend
query is issued for any malformed entity code. -/
theorem C7_counterexample :
    is_valid_entity_code "" = false ∧
    (guarded_get_entity_details dbEmpty "").queried = true := by
  refine ⟨by decide, by decide⟩

/-- C7 (amended): a search term shorter than 2 characters is answered with
a validation error before any backend query, and a NON-EMPTY entity code
that is not exactly three non-empty slash-separated segments is blocked by
the before-tool guardrail with a validation error and no backend query;
the empty code alone bypasses the guardrail format check and reaches the
backend. -/
theorem C7_validation_amended (db : Database) (term code : String) :
    (term.length < 2 →
      (search_government_entity db term).queried = false ∧
      (search_government_entity db term).resp.status = "error") ∧
    (code ≠ "" → is_valid_entity_code code = false →
      (guarded_get_entity_details db code).queried = false ∧
      (guarded_get_entity_details db code).resp.status = "error") := by
  constructor
  · intro h
    unfold search_government_entity
    rw [if_pos (Or.inr h)]
    exact ⟨rfl, rfl⟩
  · intro h1 h2
    unfold guarded_get_entity_details tool_usage_guardrail
    rw [if_pos ⟨h1, h2⟩]
    exact ⟨rfl, rfl⟩

/-- C7 amended witness: the one-segment code `abc` is non-empty and
malformed, and the guarded pipeline answers it without a backend query. -/
theorem C7_amended_witness :
    (guarded_get_entity_details dbEmpty "abc").queried = false ∧
    (guarded_get_entity_details dbEmpty "abc").resp.status = "error" :=
  (C7_validation_amended dbEmpty "abc" "abc").2 (by decide) (by decide)

/-- C9: the debt operation returns `total_debt` equal to the coalesced
ending long-term total plus the coalesced ending short-term total of the
entity's indebtedness row, and when no row exists it returns the defaulted
zero record (total 0, empty details) with the same success status — never
an error and never a not-found result. -/
theorem C9_debt_total (indebtedness : List DebtRow) (code : String) :
    (∀ r, indebtedness.find? (fun x => x.Code = code) = some r →
      get_entity_debt indebtedness code =
        { status := "success", code := code
          total_debt := coalesce r.t404 + coalesce r.t410
          details := some { TotalDebt_LongTerm := coalesce r.t404
                            TotalDebt_ShortTerm := coalesce r.t410 } }) ∧
    (indebtedness.find? (fun x => x.Code = code) = none →
      get_entity_debt indebtedness code =
        { status := "success", code := code, total_debt := 0, details := none }) ∧
    (get_entity_debt indebtedness code).status = "success" := by
  refine ⟨fun r hr => ?_, fun hn => ?_, ?_⟩
  · simp [get_entity_debt, hr]
  · simp [get_entity_debt, hn]
  · rcases h : indebtedness.find? (fun x => x.Code = code) with _ | r <;>
      simp [get_entity_debt, h]

/-- C9 witness: on the witness database the debt total is 120 = 100 + 20,
and on the empty database the defaulted zero record is returned. -/
theorem C9_debt_total_witness :
    get_entity_debt dbW.indebtedness "016/020/32" =
      { status := "success", code := "016/020/32", total_debt := coalesce debtW.t404 + coalesce debtW.t410
        details := some { TotalDebt_LongTerm := coalesce debtW.t404
                          TotalDebt_ShortTerm := coalesce debtW.t410 } } ∧
    get_entity_debt dbEmpty.indebtedness "016/020/32" =
      { status := "success", code := "016/020/32", total_debt := 0, details := none } :=
  ⟨(C9_debt_total dbW.indebtedness "016/020/32").1 debtW (by decide),
   (C9_debt_total dbEmpty.indebtedness "016/020/32").2.1 (by decide)⟩

/-- C10: every row of a valid comparison reports per-capita figures equal
to the literal 0 when the entity's population is absent, zero or negative
(no division is performed in the embedding or in the source in that case),
and equal to the total divided by the population rounded to two decimals
when the population is positive; the operation is a total function. -/
theorem C10_per_capita_safe (db : Database) (codes : List String) (row : CompareRow)
    (h2 : 2 ≤ codes.length) (h10 : codes.length ≤ 10)
    (hrow : row ∈ (compare_entities_tool db codes).comparison) :
    (row.population ≤ 0 → row.revenue_per_capita = 0 ∧ row.expenditure_per_capita = 0) ∧
    (0 < row.population →
      row.revenue_per_capita = pythonRound2 (row.total_revenue / row.population) ∧
      row.expenditure_per_capita = pythonRound2 (row.total_expenditure / row.population)) := by
  unfold compare_entities_tool at hrow
  rw [if_neg (by omega), if_neg (by omega)] at hrow
  simp only [List.mem_filterMap, Option.map_eq_some'] at hrow
  obtain ⟨c, _, e, _, rfl⟩ := hrow
  unfold mkCompareRow
  constructor
  · intro hp
    simp only at hp ⊢
    rw [if_neg (by linarith), if_neg (by linarith)]
    exact ⟨rfl, rfl⟩
  · intro hp
    simp only at hp ⊢
    rw [if_pos (by linarith), if_pos (by linarith)]
    exact ⟨rfl, rfl⟩

/-- C10 witness: the row of the witness entity (population 100, revenue
500, expenditure 400) satisfies both per-capita clauses. -/
theorem C10_per_capita_safe_witness :
    ((mkCompareRow dbW "016/020/32" uW).population ≤ 0 →
      (mkCompareRow dbW "016/020/32" uW).revenue_per_capita = 0 ∧
      (mkCompareRow dbW "016/020/32" uW).expenditure_per_capita = 0) ∧
    (0 < (mkCompareRow dbW "016/020/32" uW).population →
      (mkCompareRow dbW "016/020/32" uW).revenue_per_capita =
        pythonRound2 ((mkCompareRow dbW "016/020/32" uW).total_revenue /
          (mkCompareRow dbW "016/020/32" uW).population) ∧
      (mkCompareRow dbW "016/020/32" uW).expenditure_per_capita =
        pythonRound2 ((mkCompareRow dbW "016/020/32" uW).total_expenditure /
          (mkCompareRow dbW "016/020/32" uW).population)) :=
  C10_per_capita_safe dbW ["016/020/32", "999/999/99"]
    (mkCompareRow dbW "016/020/32" uW) (by decide) (by decide)
    (List.mem_singleton.mpr rfl)

/-- Membership in either ranking result implies membership in the eligible
row set. -/
theorem mem_rank_eligible_of_mem_sorted {metric : String} {entity_type county : Option String}
    {desc : Bool} {limit : Nat} {db : List UnitRow} {u : UnitRow}
    (hu : u ∈ ((rankEligible metric entity_type county db).insertionSort
      (rankLe metric desc)).take limit) :
    u ∈ rankEligible metric entity_type county db :=
  (List.mem_insertionSort (rankLe metric desc)).mp (List.take_subset _ _ hu)

/-- Eligible rows have a non-null metric value. -/
theorem metric_isSome_of_mem_eligible {metric : String} {entity_type county : Option String}
    {db : List UnitRow} {u : UnitRow}
    (hu : u ∈ rankEligible metric entity_type county db) :
    (metricValue metric u).isSome = true :=
  (Bool.and_eq_true _ _ |>.mp (List.mem_filter.mp hu).2).2

/-- Sequential numbering of an enumerated list. -/
theorem enum_rank_eq_range (l : List UnitRow) :
    l.enum.map (fun p => p.1 + 1) = (List.range l.length).map (fun i => i + 1) := by
  rw [List.enum_eq_zip_range]
  calc ((List.range l.length).zip l).map (fun p => p.1 + 1)
      = (((List.range l.length).zip l).map Prod.fst).map (fun i => i + 1) := by
        rw [List.map_map]; rfl
    _ = (List.range l.length).map (fun i => i + 1) := by
        rw [List.map_fst_zip _ _ (by simp)]

/-- C2 counterexample: over the fixture with populations 100, 500, 300,
500 the MS Access ranking path numbers the returned rows sequentially
1, 2, 3 — the two tied 500s do NOT share a rank — refuting the claimed
standard-RANK tie semantics on that backend. -/
theorem C2_counterexample :
    (rank_entities_access "population" none none true 3 rankFixture).map (fun r => r.Rank) =
      [1, 2, 3] ∧
    ¬ (rank_entities_access "population" none none true 3 rankFixture).map (fun r => r.Rank) =
      [1, 1, 3] := by
  exact ⟨by decide, by decide⟩

/-- C2 (amended): on both backends every returned row has a non-null
metric value; the BigQuery path carries SQL `RANK()` numbers — over the
fixture with populations 100, 500, 300, 500 ranked top with limit 3 the
ranks are 1, 1, 3 — while the MS Access path numbers the returned rows
sequentially 1, 2, ..., n with no tie sharing. -/
theorem C2_rank_amended (metric : String) (entity_type county : Option String)
    (desc : Bool) (limit : Nat) (db : List UnitRow) :
    (∀ r ∈ rank_entities_bq metric entity_type county desc limit db,
      (metricValue metric r.unit).isSome = true) ∧
    (∀ r ∈ rank_entities_access metric entity_type county desc limit db,
      (metricValue metric r.unit).isSome = true) ∧
    (rank_entities_access metric entity_type county desc limit db).map (fun r => r.Rank) =
      (List.range (rank_entities_access metric entity_type county desc limit db).length).map
        (fun i => i + 1) ∧
    (rank_entities_bq "population" none none true 3 rankFixture).map (fun r => r.Rank) =
      [1, 1, 3] := by
  refine ⟨?_, ?_, ?_, by decide⟩
  · intro r hr
    simp only [rank_entities_bq, List.mem_map] at hr
    obtain ⟨u, hu, rfl⟩ := hr
    exact metric_isSome_of_mem_eligible (mem_rank_eligible_of_mem_sorted hu)
  · intro r hr
    simp only [rank_entities_access, List.mem_map] at hr
    obtain ⟨p, hp, rfl⟩ := hr
    rw [List.enum_eq_zip_range] at hp
    exact metric_isSome_of_mem_eligible
      (mem_rank_eligible_of_mem_sorted (List.of_mem_zip hp).2)
  · simp only [rank_entities_access, List.map_map, List.length_map, List.enum_length]
    exact enum_rank_eq_range _

/-- C2 amended witness: the top-ranked fixture unit has a non-null
population metric. -/
theorem C2_rank_amended_witness :
    (metricValue "population" ru2).isSome = true :=
  (C2_rank_amended "population" none none true 3 rankFixture).1
    { unit := ru2
      MetricValue := coalesce (metricValue "population" ru2)
      Rank := sqlRank "population" true (rankEligible "population" none none rankFixture) ru2 }
    (by decide)

/-- The running-minimum loop of the pension indicator folds `min` over the
strictly positive funded ratios. -/
theorem lowestFundedLoop_eq (systems : List (String × PensionSystem)) (init : ℚ) :
    lowestFundedLoop systems init = (posRatios systems).foldl min init := by
  induction systems generalizing init with
  | nil => rfl
  | cons s t ih =>
    have hstep : lowestFundedLoop (s :: t) init =
        lowestFundedLoop t
          (if s.2.funded_ratio > 0 ∧ s.2.funded_ratio < init then s.2.funded_ratio else init) :=
      rfl
    rw [hstep, ih]
    unfold posRatios
    simp only [List.map_cons, List.filter_cons]
    by_cases hpos : 0 < s.2.funded_ratio
    · by_cases hlt : s.2.funded_ratio < init
      · rw [if_pos ⟨hpos, hlt⟩, if_pos (decide_eq_true hpos), List.foldl_cons,
          min_eq_right hlt.le]
      · rw [if_neg (fun hc => hlt hc.2), if_pos (decide_eq_true hpos), List.foldl_cons,
          min_eq_left (le_of_not_lt hlt)]
    · rw [if_neg (fun hc => hpos hc.1), if_neg (by simpa using hpos)]

/-- A fold of `min` never exceeds its initial value. -/
theorem foldl_min_le_init (l : List ℚ) (init : ℚ) : l.foldl min init ≤ init := by
  induction l generalizing init with
  | nil => exact le_refl _
  | cons a t ih => exact le_trans (ih (min init a)) (min_le_left _ _)

/-- A fold of `min` is bounded by every list element. -/
theorem foldl_min_le_mem {l : List ℚ} {a : ℚ} (ha : a ∈ l) (init : ℚ) :
    l.foldl min init ≤ a := by
  induction l generalizing init with
  | nil => cases ha
  | cons b t ih =>
    rcases List.mem_cons.mp ha with rfl | hmem
    · exact le_trans (foldl_min_le_init t (min init a)) (min_le_right _ _)
    · exact ih hmem _

/-- A fold of `min` equals its initial value or one of the elements. -/
theorem foldl_min_eq_init_or_mem (l : List ℚ) (init : ℚ) :
    l.foldl min init = init ∨ l.foldl min init ∈ l := by
  induction l generalizing init with
  | nil => exact Or.inl rfl
  | cons a t ih =>
    rcases ih (min init a) with h | h
    · rcases le_total init a with hle | hle
      · exact Or.inl (by rw [List.foldl_cons, h, min_eq_left hle])
      · refine Or.inr ?_
        rw [List.foldl_cons, h, min_eq_right hle]
        exact List.mem_cons_self _ _
    · exact Or.inr (List.mem_cons_of_mem _ h)

/-- A positive ratio of a sub-system list is a member of its `posRatios`. -/
theorem mem_posRatios {systems : List (String × PensionSystem)} {s : String × PensionSystem}
    (hs : s ∈ systems) (hpos : 0 < s.2.funded_ratio) :
    s.2.funded_ratio ∈ posRatios systems :=
  List.mem_filter.mpr ⟨List.mem_map_of_mem _ hs, by simpa using hpos⟩

/-- C3 counterexample: a pension row whose only applicable sub-system
(liability 10, so strictly positive) has a funded ratio of 150 yields a
non-empty sub-system mapping yet the pension indicator is omitted,
refuting the claim that the indicator is omitted exactly when no
sub-system is applicable. -/
theorem C3_counterexample :
    pension_systems_of (some pen150) ≠ [] ∧
    pensionIndicator (pension_systems_of (some pen150)) = none := by
  exact ⟨by decide, by decide⟩

/-- C3 (amended): a sub-system is included exactly when its coalesced
total liability is strictly positive, but the indicator is omitted
exactly when no applicable sub-system has a funded ratio strictly between
0 and 100 — not exactly when no sub-system is applicable — and when
present its value is the rounded minimum funded ratio among those in
(0, 100), a lower bound for every positive ratio. -/
theorem C3_pension_amended (row : PensionRow) (systems : List (String × PensionSystem)) :
    (∀ name sys, (name, sys) ∈ pension_systems_of (some row) → 0 < sys.total_liability) ∧
    (∀ s ∈ pensionColumns row, 0 < coalesce s.2.1 →
      ∃ sys, (s.1, sys) ∈ pension_systems_of (some row) ∧
        sys.total_liability = coalesce s.2.1 ∧ sys.funded_ratio = coalesce s.2.2.2.2) ∧
    (pensionIndicator systems = none ↔
      ∀ s ∈ systems, ¬(0 < s.2.funded_ratio ∧ s.2.funded_ratio < 100)) ∧
    (∀ e, pensionIndicator systems = some e →
      ∃ s ∈ systems, (0 < s.2.funded_ratio ∧ s.2.funded_ratio < 100) ∧
        e.value = pythonRound2 s.2.funded_ratio ∧
        ∀ t ∈ systems, 0 < t.2.funded_ratio → s.2.funded_ratio ≤ t.2.funded_ratio) := by
  refine ⟨?_, ?_, ?_, ?_⟩
  · intro name sys hmem
    simp only [pension_systems_of, List.mem_filterMap] at hmem
    obtain ⟨s, _, heq⟩ := hmem
    by_cases h : 0 < coalesce s.2.1
    · rw [if_pos h] at heq
      injection heq with heq2
      injection heq2 with hn hsys
      rw [← hsys]
      exact h
    · rw [if_neg h] at heq
      cases heq
  · intro s hs hpos
    refine ⟨{ total_liability := coalesce s.2.1, plan_assets := coalesce s.2.2.1
              net_position := coalesce s.2.2.2.1, funded_ratio := coalesce s.2.2.2.2 },
      ?_, rfl, rfl⟩
    simp only [pension_systems_of, List.mem_filterMap]
    exact ⟨s, hs, by rw [if_pos hpos]⟩
  · unfold pensionIndicator
    by_cases hnil : systems = []
    · subst hnil
      simp
    · rw [if_neg hnil, lowestFundedLoop_eq]
      by_cases hlt : (posRatios systems).foldl min 100 < 100
      · rw [if_pos hlt]
        refine iff_of_false (by simp) ?_
        rcases foldl_min_eq_init_or_mem (posRatios systems) 100 with h100 | hmem
        · rw [h100] at hlt
          exact absurd hlt (lt_irrefl _)
        · obtain ⟨hmap, hdec⟩ := List.mem_filter.mp hmem
          obtain ⟨s, hsmem, hratio⟩ := List.mem_map.mp hmap
          intro hall
          exact hall s hsmem ⟨by rw [hratio]; simpa using hdec, by rw [hratio]; exact hlt⟩
      · rw [if_neg hlt]
        refine iff_of_true rfl ?_
        rintro s hsmem ⟨h0, h100⟩
        exact hlt (lt_of_le_of_lt (foldl_min_le_mem (mem_posRatios hsmem h0) 100) h100)
  · intro e he
    unfold pensionIndicator at he
    by_cases hnil : systems = []
    · rw [if_pos hnil] at he
      cases he
    · rw [if_neg hnil, lowestFundedLoop_eq] at he
      by_cases hlt : (posRatios systems).foldl min 100 < 100
      · rw [if_pos hlt] at he
        injection he with he2
        rcases foldl_min_eq_init_or_mem (posRatios systems) 100 with h100 | hmem
        · rw [h100] at hlt
          exact absurd hlt (lt_irrefl _)
        · obtain ⟨hmap, hdec⟩ := List.mem_filter.mp hmem
          obtain ⟨s, hsmem, hratio⟩ := List.mem_map.mp hmap
          refine ⟨s, hsmem, ⟨by rw [hratio]; simpa using hdec, by rw [hratio]; exact hlt⟩,
            ?_, ?_⟩
          · rw [← he2, hratio]
          · intro t htmem htpos
            rw [hratio]
            exact foldl_min_le_mem (mem_posRatios htmem htpos) 100
      · rw [if_neg hlt] at he
        cases he

/-- C3 amended witness: the IMRF sub-system of the witness pension row is
included with its strictly positive liability. -/
theorem C3_pension_amended_witness :
    0 < ({ total_liability := coalesce (some 10), plan_assets := coalesce (some 5)
           net_position := coalesce (some 5), funded_ratio := coalesce (some 50) } :
      PensionSystem).total_liability :=
  (C3_pension_amended penW []).1 "IMRF" _ (by decide)

/-- C5: when the entity resolves, the fiscal health score reports the raw
adapter totals, the coalesced population and the `307t` General-Fund
unassigned balance, and emits the operating margin exactly when revenue is
positive, the fund-balance ratio exactly when expenditure is positive and
debt per capita exactly when population is positive, with the claimed
value formulas. -/
theorem C5_health_indicators (db : Database) (code : String) (entity : UnitRow)
    (h : get_entity_by_code db code = some entity) : healthScoreSpec db code entity := by
  unfold healthScoreSpec
  simp only [calculate_fiscal_health_score, h]
  refine ⟨_, _, rfl, rfl, rfl, rfl, rfl, rfl, ?_, ?_, ?_, ?_, ?_, ?_⟩
  · by_cases hc : 0 < (get_entity_revenues_bq db.revenues code).total <;> simp [hc]
  · intro e he
    dsimp only at he ⊢
    split_ifs at he with hc
    injection he with he2
    rw [← he2]
  · by_cases hc : 0 < (get_entity_revenues_bq db.expenditures code).total <;> simp [hc]
  · intro e he
    dsimp only at he ⊢
    split_ifs at he with hc
    injection he with he2
    rw [← he2]
  · by_cases hc : 0 < coalesce entity.Pop <;> simp [hc]
  · intro e he
    dsimp only at he ⊢
    split_ifs at he with hc
    injection he with he2
    rw [← he2]

/-- C5 witness: the witness database satisfies the indicator specification
for the witness entity. -/
theorem C5_health_indicators_witness : healthScoreSpec dbW "016/020/32" uW :=
  C5_health_indicators dbW "016/020/32" uW (by decide)

/-- C8: for a well-formed term (at least 2 characters), a fixture on which
exactly one unit matches the search yields exactly that unit as a success,
and a fixture with no match yields the `not_found` status, which is
distinct from the `error` status. -/
theorem C8_search_results (db : Database) (term : String) (e : UnitRow)
    (hlen : 2 ≤ term.length) :
    (db.units.filter (matchesSearch term) = [e] →
      search_government_entity db term =
        .backend { status := "success", message := none, count := 1, entities := [e] }) ∧
    (db.units.filter (matchesSearch term) = [] →
      (search_government_entity db term).resp.status = "not_found" ∧
      (search_government_entity db term).resp.status ≠ "error") := by
  have hne : ¬ term = "" := by
    intro h
    rw [h] at hlen
    exact absurd hlen (by decide)
  have hguard : ¬ (term = "" ∨ term.length < 2) := by
    rintro (h | h)
    · exact hne h
    · omega
  constructor
  · intro hf
    unfold search_government_entity search_entities_bq
    rw [if_neg hguard, hf]
    rfl
  · intro hf
    unfold search_government_entity search_entities_bq
    rw [if_neg hguard, hf]
    exact ⟨rfl, fun hco =>
      absurd (show ("not_found" : String) = "error" from hco) (by decide)⟩

/-- C8 witness: searching the witness database for `Skokie` returns
exactly the witness entity. -/
theorem C8_search_results_witness :
    search_government_entity dbW "Skokie" =
      .backend { status := "success", message := none, count := 1, entities := [uW] } :=
  (C8_search_results dbW "Skokie" uW (by decide)).1 (by decide)
